import Mathlib

/-!
Shallow embedding of the conversation turn-taking orchestrator of the
Parley voice chat front end.  Each definition below translates one
function or event handler of the source; React state variables and refs
are modelled as fields of explicit state records, and the callback
handlers as transitions on those records.  Timers are modelled as
pending entries whose firing is a separate event.
-/

namespace Parley

/-- Model of the JavaScript string trim primitive used by the source as
text.trim(): it removes leading and trailing whitespace characters. -/
def isWsChar (c : Char) : Bool :=
  c == ' ' || c == '\t' || c == '\n' || c == '\r'

/-- jsTrim s drops whitespace characters from both ends of s. -/
def jsTrim (s : String) : String :=
  String.mk (((s.data.dropWhile isWsChar).reverse.dropWhile isWsChar).reverse)

/-! ### Speech synthesis queue of the primary variant

The primary component keeps a FIFO of text chunks in speechQueueRef and
drives window.speechSynthesis through speakChunk and processNextSpeech.
inFlight holds the utterance handed to speechSynthesis.speak whose onend
or onerror callback has not fired yet; enqueued and completed are ghost
histories used to state ordering properties. -/

structure SpeechState where
  queue : List String
  inFlight : List String
  isSpeakingRef : Bool
  isSpeaking : Bool
  enqueued : List String
  completed : List String
deriving DecidableEq

def initSpeech : SpeechState := ⟨[], [], false, false, [], []⟩

/-- processNextSpeech of the source: when the queue is empty both
speaking flags are cleared; otherwise the head is shifted off and handed
to the synthesizer with both flags set. -/
def processNextSpeech (s : SpeechState) : SpeechState :=
  match s.queue with
  | [] => { s with isSpeakingRef := false, isSpeaking := false }
  | t :: rest =>
      { s with isSpeakingRef := true, isSpeaking := true,
               queue := rest, inFlight := s.inFlight ++ [t] }

/-- speakChunk of the source: whitespace-only text is dropped, otherwise
the text is pushed to the queue, and draining starts when the
isSpeakingRef flag is clear. -/
def speakChunk (text : String) (s : SpeechState) : SpeechState :=
  if jsTrim text = "" then s
  else
    let s1 := { s with queue := s.queue ++ [text], enqueued := s.enqueued ++ [text] }
    if s1.isSpeakingRef then s1 else processNextSpeech s1

/-- utterance.onend of the source: the finished utterance is recorded as
completed and processNextSpeech runs.  The event fires only for an
utterance in flight; with none the transition is the identity. -/
def onUtteranceEnd (s : SpeechState) : SpeechState :=
  match s.inFlight with
  | [] => s
  | u :: rest =>
      processNextSpeech { s with inFlight := rest, completed := s.completed ++ [u] }

/-- utterance.onerror of the source: its body is the same call to
processNextSpeech as utterance.onend. -/
def onUtteranceError (s : SpeechState) : SpeechState :=
  match s.inFlight with
  | [] => s
  | u :: rest =>
      processNextSpeech { s with inFlight := rest, completed := s.completed ++ [u] }

/-- Events driving the speech queue: an enqueue from a streamed chunk,
segment completion, and segment playback error. -/
inductive SEvent
  | chunk (t : String)
  | segEnd
  | segError
deriving DecidableEq

def sStep (s : SpeechState) (e : SEvent) : SpeechState :=
  match e with
  | .chunk t => speakChunk t s
  | .segEnd => onUtteranceEnd s
  | .segError => onUtteranceError s

def sRun (evs : List SEvent) : SpeechState := evs.foldl sStep initSpeech

/-- handleSpeak of the primary variant, the per-message replay command:
while speech is playing it cancels synthesis, empties the queue and
clears the speaking flags without speaking the argument; otherwise it
speaks the argument as a standalone utterance (second component lists
the texts handed to speechSynthesis.speak). -/
def handleSpeak (s : SpeechState) (text : String) : SpeechState × List String :=
  if s.isSpeaking then
    ({ s with queue := [], inFlight := [], isSpeakingRef := false, isSpeaking := false }, [])
  else (s, [text])

/-- Inductive invariant of the speech queue: the ghost histories split
the enqueued list, at most one utterance is in flight, and the speaking
flags mirror the in-flight status. -/
def SpeechInv (s : SpeechState) : Prop :=
  s.completed ++ s.inFlight ++ s.queue = s.enqueued ∧
  s.inFlight.length ≤ 1 ∧
  s.isSpeakingRef = !s.inFlight.isEmpty ∧
  s.isSpeaking = s.isSpeakingRef

/-! ### Audio clip playback of the server-audio variant

The second variant of the component plays pre-rendered audio clips: it
keeps audioQueueRef (a FIFO of clip references), currentAudioRef (the
clip being played), the audioModeRef mirror of the audio output toggle,
and the isSpeaking render state.  started is a ghost history of clips
handed to the player. -/

structure AudioState where
  audioMode : Bool
  queue : List String
  current : Option String
  isSpeaking : Bool
  started : List String
deriving DecidableEq

/-- playNextAudio of the source: a no-op when audio output is disabled
or a clip is already playing; with an empty queue it clears isSpeaking;
otherwise the head is shifted off and played (a falsy empty reference is
treated like an empty queue, as the source tests the shifted value). -/
def playNextAudio (s : AudioState) : AudioState :=
  if !s.audioMode then s
  else if s.current.isSome then s
  else
    match s.queue with
    | [] => { s with isSpeaking := false }
    | u :: rest =>
        if u = "" then { s with queue := rest, isSpeaking := false }
        else { s with queue := rest, current := some u,
                      isSpeaking := true, started := s.started ++ [u] }

/-- enqueueAudio of the source: empty references are dropped, the clip
is pushed, and draining is kicked only while audio output is enabled. -/
def enqueueAudio (url : String) (s : AudioState) : AudioState :=
  if url = "" then s
  else
    let s1 := { s with queue := s.queue ++ [url] }
    if s1.audioMode then playNextAudio s1 else s1

/-- handleComplete of the source, shared by audio.onended and
audio.onerror of the playing clip: the current reference is cleared, the
isSpeaking flag is cleared when the queue is empty, and playNextAudio
runs.  It can only fire while a clip is playing. -/
def onAudioComplete (s : AudioState) : AudioState :=
  match s.current with
  | none => s
  | some _ =>
      let s1 := { s with current := none }
      let s2 := if s1.queue.isEmpty then { s1 with isSpeaking := false } else s1
      playNextAudio s2

/-- The effect the source runs when the audio output toggle turns off:
audioModeRef is cleared, the queue is emptied, and stopCurrentAudio
pauses and drops the playing clip and clears isSpeaking. -/
def disableAudio (s : AudioState) : AudioState :=
  { s with audioMode := false, queue := [], current := none, isSpeaking := false }

/-- The effect the source runs when the audio output toggle turns on:
audioModeRef is set and playNextAudio resumes draining. -/
def enableAudio (s : AudioState) : AudioState :=
  playNextAudio { s with audioMode := true }

/-- Events driving the audio clip player. -/
inductive AEvent
  | enq (u : String)
  | complete
  | disable
  | enable
deriving DecidableEq

def aStep (s : AudioState) (e : AEvent) : AudioState :=
  match e with
  | .enq u => enqueueAudio u s
  | .complete => onAudioComplete s
  | .disable => disableAudio s
  | .enable => enableAudio s

def aRun (s : AudioState) (evs : List AEvent) : AudioState := evs.foldl aStep s

/-! ### Recognition events and submission of the server-audio variant

This variant submits a captured utterance from two places: the onresult
handler submits a final transcript immediately, and the onspeechend
handler arms a 500 ms silence timer that submits the accumulated buffer
when it fires.  lastTranscript is the last-writer-wins utterance buffer
and sent is the ghost history of user_message payloads emitted to the
socket. -/

structure RecogState where
  lastTranscript : String
  interimTranscript : String
  conversationMode : Bool
  hasSocket : Bool
  sessionId : String
  inputText : String
  showChat : Bool
  timerPending : Bool
  msgs : List String
  sent : List String
  alerts : List String
deriving DecidableEq

/-- handleSendMessage of the server-audio variant: an explicit non-empty
argument wins over the typed input, whitespace-only text or a missing
socket or session id aborts (with a user-visible alert in the two latter
cases), otherwise the message is appended locally and emitted as a
user_message payload. -/
def handleSendMessageR (messageText : Option String) (s : RecogState) : RecogState :=
  let textToSend :=
    match messageText with
    | some t => if t = "" then s.inputText else t
    | none => s.inputText
  if jsTrim textToSend = "" ∨ ¬s.hasSocket ∨ s.sessionId = "" then
    if ¬s.hasSocket ∨ s.sessionId = "" then
      { s with alerts := s.alerts ++ ["Not connected to server. Please wait..."] }
    else s
  else
    { s with msgs := s.msgs ++ [textToSend], showChat := true,
             sent := s.sent ++ [textToSend], inputText := "" }

/-- recognitionInstance.onresult of the server-audio variant: the latest
final-or-interim text overwrites the buffer, and a non-empty final text
is submitted immediately, clearing the buffer afterwards. -/
def onResult (finalText interimText : String) (s : RecogState) : RecogState :=
  let currentText := if finalText = "" then interimText else finalText
  let s1 :=
    if currentText = "" then s
    else { s with lastTranscript := currentText, interimTranscript := currentText }
  if finalText ≠ "" ∧ s1.conversationMode then
    let s2 := handleSendMessageR (some finalText) s1
    { s2 with interimTranscript := "", lastTranscript := "" }
  else s1

/-- recognitionInstance.onspeechend of the server-audio variant: it arms
the 500 ms silence timer. -/
def onSpeechEnd (s : RecogState) : RecogState := { s with timerPending := true }

/-- The silence timer body of the server-audio variant: when it fires it
submits the trimmed accumulated buffer if conversation mode is on and
the buffer is non-empty, then clears the buffer. -/
def onSilenceTimer (s : RecogState) : RecogState :=
  if s.timerPending then
    let s0 := { s with timerPending := false }
    let textToSend := jsTrim s0.lastTranscript
    if textToSend ≠ "" ∧ s0.conversationMode then
      let s2 := handleSendMessageR (some textToSend) s0
      { s2 with interimTranscript := "", lastTranscript := "" }
    else s0
  else s

/-- recognitionInstance.onspeechstart of the server-audio variant: it
cancels the silence timer and resets the buffer for a new utterance. -/
def onSpeechStart (s : RecogState) : RecogState :=
  { s with timerPending := false, lastTranscript := "" }

/-- Recognition events: a result carrying the concatenated final and
interim texts, speech end, speech start, and the silence timer firing. -/
inductive REvent
  | result (finalText interimText : String)
  | speechEnd
  | speechStart
  | silence
deriving DecidableEq

def rStep (s : RecogState) (e : REvent) : RecogState :=
  match e with
  | .result f i => onResult f i s
  | .speechEnd => onSpeechEnd s
  | .speechStart => onSpeechStart s
  | .silence => onSilenceTimer s

def rRun (s : RecogState) (evs : List REvent) : RecogState := evs.foldl rStep s

/-! ### Orchestrator state of the primary variant

The primary component owns the conversation mode and lock flags, the
connection state, the recognition-running ref, the speech queue above,
and the pending restart timers scheduled by the ai_complete handler.
startsWhilePlayback records, for every recognition.start() call made by
a restart timer, whether a speech segment was queued or in flight at
that instant. -/

structure OrchState where
  conversationMode : Bool
  isListening : Bool
  locked : Bool
  audioMode : Bool
  isConnected : Bool
  hasSocket : Bool
  sessionId : String
  hasSessionData : Bool
  sessionDataId : String
  inputText : String
  showChat : Bool
  isAIResponding : Bool
  isRecognitionRunning : Bool
  hasRecognition : Bool
  currentAIMessage : String
  msgs : List String
  sent : List String
  alerts : List String
  speech : SpeechState
  restartDelays : List Nat
  errorRetryCount : Nat
  startsWhilePlayback : List Bool
deriving DecidableEq

/-- The initial render of the primary component: conversation mode and
audio output start enabled (useState true), everything else is off or
empty; the recognition instance is created by the init effect. -/
def initOrch : OrchState :=
  { conversationMode := true, isListening := false, locked := false,
    audioMode := true, isConnected := false, hasSocket := false,
    sessionId := "", hasSessionData := false, sessionDataId := "",
    inputText := "", showChat := false, isAIResponding := false,
    isRecognitionRunning := false, hasRecognition := true,
    currentAIMessage := "", msgs := [], sent := [], alerts := [],
    speech := initSpeech, restartDelays := [], errorRetryCount := 0,
    startsWhilePlayback := [] }

/-- The session id resolution of handleSendMessage in the primary
variant: sessionData wins, then the session id received on connect. -/
def activeSessionId (s : OrchState) : String :=
  if s.hasSessionData ∧ s.sessionDataId ≠ "" then s.sessionDataId else s.sessionId

/-- handleSendMessage of the primary variant: same logic as the
server-audio one, with the sessionData fallback for the session id. -/
def handleSendMessage (messageText : Option String) (s : OrchState) : OrchState :=
  let textToSend :=
    match messageText with
    | some t => if t = "" then s.inputText else t
    | none => s.inputText
  if jsTrim textToSend = "" ∨ ¬s.hasSocket ∨ activeSessionId s = "" then
    if ¬s.hasSocket ∨ activeSessionId s = "" then
      { s with alerts := s.alerts ++ ["Not connected to server. Please wait..."] }
    else s
  else
    { s with msgs := s.msgs ++ [textToSend], showChat := true,
             sent := s.sent ++ [textToSend], inputText := "" }

/-- True when a playback segment is in flight or the playback queue is
non-empty. -/
def playbackBusy (s : OrchState) : Bool :=
  !s.speech.inFlight.isEmpty || !s.speech.queue.isEmpty

/-- recognition.start() as performed inside a restart timer: the running
ref is set, and the ghost history records whether playback was busy. -/
def recognitionStart (s : OrchState) : OrchState :=
  { s with isRecognitionRunning := true,
           startsWhilePlayback := s.startsWhilePlayback ++ [playbackBusy s] }

/-- The ai_chunk socket handler of the primary variant: the streamed
text is appended and, while audio output is enabled, the chunk is handed
to speakChunk. -/
def aiChunk (c : String) (s : OrchState) : OrchState :=
  let s1 := { s with currentAIMessage := s.currentAIMessage ++ c }
  if s1.audioMode then { s1 with speech := speakChunk c s1.speech } else s1

/-- The ai_complete socket handler of the primary variant: the full
response is appended as a message, the streaming buffer clears, and a
restart timer is scheduled (1500 ms with audio output, 500 ms without)
when conversation mode is on, a recognition instance exists, and the
mode is not locked.  The timer condition never looks at the playback
queue. -/
def aiComplete (full : String) (s : OrchState) : OrchState :=
  let s1 := { s with isAIResponding := false, msgs := s.msgs ++ [full],
                     currentAIMessage := "" }
  if s1.conversationMode ∧ s1.hasRecognition ∧ ¬s1.locked then
    { s1 with restartDelays := s1.restartDelays ++ [if s1.audioMode then 1500 else 500] }
  else s1

/-- A scheduled restart timer firing: the body starts recognition only
when the running ref is clear; it consults nothing else. -/
def restartTimerFire (s : OrchState) : OrchState :=
  match s.restartDelays with
  | [] => s
  | _ :: rest =>
      let s1 := { s with restartDelays := rest }
      if ¬s1.isRecognitionRunning then recognitionStart s1 else s1

/-- recognitionInstance.onerror of the primary variant: no-speech and
aborted errors schedule a delayed recognition restart while conversation
mode is on and unlocked; any other error turns conversation mode off and
sets the lock flag. -/
def onRecError (kind : String) (s : OrchState) : OrchState :=
  if kind = "no-speech" ∨ kind = "aborted" then
    if s.conversationMode ∧ ¬s.locked then
      { s with errorRetryCount := s.errorRetryCount + 1 }
    else s
  else
    { s with conversationMode := false, isListening := false, locked := true }

/-- The socket being created by the init effect. -/
def socketCreated (s : OrchState) : OrchState := { s with hasSocket := true }

/-- The connect socket handler: the connected flag is set. -/
def onConnect (s : OrchState) : OrchState := { s with isConnected := true }

/-- The connected socket handler: the remote session id is stored. -/
def onConnectedId (sid : String) (s : OrchState) : OrchState := { s with sessionId := sid }

/-- The disconnect socket handler: only the connected flag clears; the
socket object and the stored session id survive. -/
def onDisconnect (s : OrchState) : OrchState := { s with isConnected := false }

/-- The sessionData effect of the primary variant when the session data
is removed while messages exist: the log is cleared and the lock flag is
set, while conversation mode is left unchanged. -/
def sessionReset (s : OrchState) : OrchState :=
  if ¬s.hasSessionData ∧ ¬s.msgs.isEmpty then
    { s with msgs := [], showChat := false, locked := true }
  else s

/-- Orchestrator events of the primary variant. -/
inductive OEvent
  | socketReady
  | connectEvt
  | connectedEvt (sid : String)
  | disconnectEvt
  | aiChunkEvt (c : String)
  | aiCompleteEvt (full : String)
  | restartFire
  | recError (kind : String)
  | reset
  | send (t : Option String)
  | segEnd
deriving DecidableEq

def oStep (s : OrchState) (e : OEvent) : OrchState :=
  match e with
  | .socketReady => socketCreated s
  | .connectEvt => onConnect s
  | .connectedEvt sid => onConnectedId sid s
  | .disconnectEvt => onDisconnect s
  | .aiChunkEvt c => aiChunk c s
  | .aiCompleteEvt full => aiComplete full s
  | .restartFire => restartTimerFire s
  | .recError kind => onRecError kind s
  | .reset => sessionReset s
  | .send t => handleSendMessage t s
  | .segEnd => { s with speech := onUtteranceEnd s.speech }

def oRun (evs : List OEvent) : OrchState := evs.foldl oStep initOrch

/-- The disabled attribute of the send button in the primary variant:
empty input, a dropped connection, or an in-flight response disable it. -/
def sendButtonDisabled (s : OrchState) : Bool :=
  decide (jsTrim s.inputText = "") || !s.isConnected || s.isAIResponding

/-! ### Session join and history replay of the primary variant -/

/-- One entry of the history array returned by the remote on join. -/
structure HistEntry where
  role : String
  content : String
deriving DecidableEq

/-- One rendered message loaded from history. -/
structure HistMsg where
  id : String
  text : String
  senderIsUser : Bool
deriving DecidableEq

/-- The session_joined socket handler of the primary variant, restricted
to its history replay: when no local session data exists and the remote
returned a non-empty history, the most recent entry with the tutor role
is handed to speakChunk (only while audio output is enabled) and the
whole history is mapped, in order, onto completed messages.  The first
component is the loaded message list, the second the texts handed to
speakChunk. -/
def sessionJoined (hasSessionData : Bool) (audioMode : Bool)
    (history : List HistEntry) : List HistMsg × List String :=
  if ¬hasSessionData ∧ ¬history.isEmpty then
    let lastAI := history.reverse.find? (fun m => m.role == "tutor")
    let spoken :=
      match lastAI with
      | some m => if audioMode then [m.content] else []
      | none => []
    let loaded := history.enum.map (fun p =>
      { id := "history-" ++ toString p.1, text := p.2.content,
        senderIsUser := p.2.role == "user" : HistMsg })
    (loaded, spoken)
  else ([], [])

/-! ### Concrete states used by witnesses and counterexamples -/

/-- A connected recognition state with conversation mode on, a live
socket, a session id, and nothing sent yet. -/
def c1Start : RecogState :=
  { lastTranscript := "", interimTranscript := "", conversationMode := true,
    hasSocket := true, sessionId := "sid", inputText := "", showChat := false,
    timerPending := false, msgs := [], sent := [], alerts := [] }

/-- An orchestrator state whose recognition-running ref is set and with
one pending restart timer. -/
def runningOrch : OrchState :=
  { initOrch with isRecognitionRunning := true, restartDelays := [1500] }

/-- A disconnected orchestrator state that still holds its socket and
session id. -/
def discOrch : OrchState :=
  { initOrch with hasSocket := true, sessionId := "s1" }

/-- An audio player state in the middle of playing a clip with another
one queued. -/
def playingAudio : AudioState :=
  { audioMode := true, queue := ["b"], current := some "a",
    isSpeaking := true, started := ["a"] }

/-- A speech queue state with one utterance in flight and one queued. -/
def speakingSpeech : SpeechState :=
  { queue := ["b"], inFlight := ["a"], isSpeakingRef := true,
    isSpeaking := true, enqueued := ["a", "b"], completed := [] }

/-- A four-entry remote history with two tutor messages. -/
def histSample : List HistEntry :=
  [⟨"user", "hi"⟩, ⟨"tutor", "hello"⟩, ⟨"user", "q"⟩, ⟨"tutor", "ans"⟩]

end Parley

namespace Parley

theorem processNext_nil (s : SpeechState) (h : s.queue = []) :
    processNextSpeech s = { s with isSpeakingRef := false, isSpeaking := false } := by
  unfold processNextSpeech
  rw [h]

theorem processNext_cons (s : SpeechState) (t : String) (rest : List String)
    (h : s.queue = t :: rest) :
    processNextSpeech s =
      { s with isSpeakingRef := true, isSpeaking := true,
               queue := rest, inFlight := s.inFlight ++ [t] } := by
  unfold processNextSpeech
  rw [h]

theorem processNext_inv (s : SpeechState)
    (h1 : s.completed ++ s.inFlight ++ s.queue = s.enqueued)
    (h2 : s.inFlight = []) :
    SpeechInv (processNextSpeech s) := by
  cases hq : s.queue with
  | nil =>
      rw [processNext_nil s hq]
      refine ⟨?_, ?_, ?_, rfl⟩
      · simpa using h1
      · simp [h2]
      · simp [h2]
  | cons t rest =>
      rw [processNext_cons s t rest hq]
      refine ⟨?_, ?_, ?_, rfl⟩
      · simp only [h2, List.nil_append] at h1 ⊢
        rw [← h1, hq]
        simp
      · simp [h2]
      · simp [h2]

theorem sStep_inv (s : SpeechState) (e : SEvent) (h : SpeechInv s) :
    SpeechInv (sStep s e) := by
  obtain ⟨h1, h2, h3, h4⟩ := h
  cases e with
  | chunk t =>
      show SpeechInv (speakChunk t s)
      unfold speakChunk
      split
      · exact ⟨h1, h2, h3, h4⟩
      · dsimp only
        split
        · refine ⟨?_, h2, h3, h4⟩
          simp only []
          rw [← h1]
          simp
        · rename_i href
          have hfl : s.inFlight = [] := by
            have : s.isSpeakingRef = false := by
              simpa using href
            rw [this] at h3
            cases hfi : s.inFlight with
            | nil => rfl
            | cons a l => rw [hfi] at h3; simp at h3
          apply processNext_inv
          · simp only []
            rw [← h1]
            simp
          · simpa using hfl
  | segEnd =>
      show SpeechInv (onUtteranceEnd s)
      unfold onUtteranceEnd
      cases hif : s.inFlight with
      | nil => exact ⟨h1, h2, h3, h4⟩
      | cons u rest =>
          have hrest : rest = [] := by
            rw [hif] at h2
            simpa using h2
          subst hrest
          apply processNext_inv
          · simp only []
            rw [← h1, hif]
            simp
          · rfl
  | segError =>
      show SpeechInv (onUtteranceError s)
      unfold onUtteranceError
      cases hif : s.inFlight with
      | nil => exact ⟨h1, h2, h3, h4⟩
      | cons u rest =>
          have hrest : rest = [] := by
            rw [hif] at h2
            simpa using h2
          subst hrest
          apply processNext_inv
          · simp only []
            rw [← h1, hif]
            simp
          · rfl

theorem speechInv_foldl (evs : List SEvent) (s : SpeechState) (h : SpeechInv s) :
    SpeechInv (evs.foldl sStep s) := by
  induction evs generalizing s with
  | nil => exact h
  | cons e rest ih => exact ih (sStep s e) (sStep_inv s e h)

theorem speechInv_run (evs : List SEvent) : SpeechInv (sRun evs) := by
  apply speechInv_foldl
  refine ⟨rfl, ?_, rfl, rfl⟩
  simp [initSpeech]

theorem jsTrim_empty : jsTrim "" = "" := rfl

theorem ne_empty_of_jsTrim_ne (t : String) (h : jsTrim t ≠ "") : t ≠ "" :=
  fun he => h (by rw [he]; rfl)

theorem rRun_append (s : RecogState) (a b : List REvent) :
    rRun s (a ++ b) = rRun (rRun s a) b := by
  simp [rRun, List.foldl_append]

theorem onResult_no_final (i : String) (s : RecogState) :
    onResult "" i s =
      if i = "" then s
      else { s with lastTranscript := i, interimTranscript := i } := by
  unfold onResult
  simp

theorem rRun_interims (interims : List String) (s : RecogState) :
    (rRun s (interims.map (fun i => REvent.result "" i))).sent = s.sent ∧
    (rRun s (interims.map (fun i => REvent.result "" i))).conversationMode
      = s.conversationMode ∧
    (rRun s (interims.map (fun i => REvent.result "" i))).hasSocket = s.hasSocket ∧
    (rRun s (interims.map (fun i => REvent.result "" i))).sessionId = s.sessionId ∧
    (rRun s (interims.map (fun i => REvent.result "" i))).inputText = s.inputText := by
  induction interims generalizing s with
  | nil => exact ⟨rfl, rfl, rfl, rfl, rfl⟩
  | cons i is ih =>
      have hstep : rRun s ((i :: is).map (fun i => REvent.result "" i))
          = rRun (onResult "" i s) (is.map (fun i => REvent.result "" i)) := rfl
      rw [hstep, onResult_no_final]
      by_cases hi : i = ""
      · rw [if_pos hi]
        exact ih s
      · rw [if_neg hi]
        simpa using ih { s with lastTranscript := i, interimTranscript := i }

theorem handleSendMessageR_sends (t : String) (s : RecogState)
    (htrim : jsTrim t ≠ "") (hsock : s.hasSocket = true) (hsid : s.sessionId ≠ "") :
    handleSendMessageR (some t) s =
      { s with msgs := s.msgs ++ [t], showChat := true,
               sent := s.sent ++ [t], inputText := "" } := by
  have ht : t ≠ "" := ne_empty_of_jsTrim_ne t htrim
  unfold handleSendMessageR
  simp [ht, htrim, hsock, hsid]

theorem onResult_final_props (f : String) (s : RecogState) (hf : jsTrim f ≠ "")
    (hmode : s.conversationMode = true) (hsock : s.hasSocket = true)
    (hsid : s.sessionId ≠ "") :
    (onResult f "" s).sent = s.sent ++ [f] ∧ (onResult f "" s).lastTranscript = "" := by
  have hfne : f ≠ "" := ne_empty_of_jsTrim_ne f hf
  unfold onResult handleSendMessageR
  simp [hfne, hf, hmode, hsock, hsid]

theorem onSilenceTimer_empty_buffer (s : RecogState) (h : s.lastTranscript = "") :
    (onSilenceTimer s).sent = s.sent := by
  unfold onSilenceTimer
  by_cases hp : s.timerPending = true
  · simp [hp, h, jsTrim_empty]
  · simp [hp]

/-- Claim C1, amended: starting from a connected state with conversation
mode on and nothing sent, a run of interim transcript events followed by
one final transcript event and then the end-of-speech silence timer
produces exactly one submission, whose text equals the final text; the
timer is a no-op because the buffer was cleared on submission.  The
amendment restricts the claim to the ordering in which the final event
arrives before the silence timer fires. -/
theorem final_before_timer_single_submission (s : RecogState)
    (interims : List String) (f : String)
    (hmode : s.conversationMode = true) (hsock : s.hasSocket = true)
    (hsid : s.sessionId ≠ "") (hsent : s.sent = []) (hf : jsTrim f ≠ "") :
    (rRun s (interims.map (fun i => REvent.result "" i)
        ++ [REvent.result f "", REvent.speechEnd, REvent.silence])).sent = [f] := by
  rw [rRun_append]
  obtain ⟨p1, p2, p3, p4, p5⟩ := rRun_interims interims s
  set sA := rRun s (interims.map (fun i => REvent.result "" i)) with hsA
  have hfne : f ≠ "" := ne_empty_of_jsTrim_ne f hf
  have hmodeA : sA.conversationMode = true := by rw [p2, hmode]
  have hsockA : sA.hasSocket = true := by rw [p3, hsock]
  have hsidA : sA.sessionId ≠ "" := by rw [p4]; exact hsid
  have hrun : rRun sA [REvent.result f "", REvent.speechEnd, REvent.silence]
      = onSilenceTimer (onSpeechEnd (onResult f "" sA)) := rfl
  obtain ⟨hx1, hx2⟩ := onResult_final_props f sA hf hmodeA hsockA hsidA
  have hse1 : (onSpeechEnd (onResult f "" sA)).sent = (onResult f "" sA).sent := rfl
  have hse2 : (onSpeechEnd (onResult f "" sA)).lastTranscript
      = (onResult f "" sA).lastTranscript := rfl
  rw [hrun, onSilenceTimer_empty_buffer _ (hse2.trans hx2), hse1, hx1, p1, hsent]
  rfl

/-- Claim C1 counterexample: with one interim transcript "hello", a
speech-end whose silence timer fires before the final result arrives,
and then the final transcript "hello there", the code submits twice and
the first submission does not carry the final text, falsifying the
exactly-one-submission claim at this concrete input. -/
theorem timer_before_final_double_submission :
    (rRun c1Start [REvent.result "" "hello", REvent.speechEnd, REvent.silence,
        REvent.result "hello there" ""]).sent = ["hello", "hello there"] ∧
    ["hello", "hello there"] ≠ ["hello there"] := by
  constructor
  · decide
  · decide

/-- Witness for the amended claim C1 at a concrete run. -/
theorem final_before_timer_single_submission_witness :
    (rRun c1Start ((["um"].map (fun i => REvent.result "" i))
        ++ [REvent.result "hello friend" "", REvent.speechEnd, REvent.silence])).sent
      = ["hello friend"] :=
  final_before_timer_single_submission c1Start ["um"] "hello friend"
    rfl rfl (by decide) rfl (by decide)

/-- Claim C2, amended: a restart timer scheduled by ai_complete uses the
fixed settle delay (1500 ms with audio output on, 500 ms with it off)
and, when it fires, starts recognition only if the recognition-running
ref is clear; the playback queue is never consulted, so a start may
happen while segments are queued or playing.  The guarantee that does
hold is stated here: a timer firing while the running ref is set
performs no recognition start. -/
theorem restart_timer_guard_is_running_flag (s : OrchState) (full : String)
    (hrun : s.isRecognitionRunning = true) :
    (restartTimerFire s).startsWhilePlayback = s.startsWhilePlayback ∧
    (restartTimerFire s).isRecognitionRunning = true ∧
    (aiComplete full s).restartDelays =
      (if s.conversationMode ∧ s.hasRecognition ∧ ¬s.locked then
        s.restartDelays ++ [if s.audioMode then 1500 else 500]
      else s.restartDelays) := by
  refine ⟨?_, ?_, ?_⟩
  · unfold restartTimerFire
    cases h : s.restartDelays with
    | nil => rfl
    | cons d rest => simp [hrun]
  · unfold restartTimerFire
    cases h : s.restartDelays with
    | nil => exact hrun
    | cons d rest => simp [hrun]
  · unfold aiComplete
    dsimp only
    split
    · rfl
    · rfl

/-- Claim C2 counterexample: after one streamed chunk is enqueued and
starts playing, ai_complete schedules a restart timer; when that timer
fires the chunk is still in flight, yet recognition.start() is invoked,
so the start happens while a playback segment is in flight. -/
theorem restart_fires_during_playback :
    (oRun [.socketReady, .connectEvt, .connectedEvt "s1",
           .aiChunkEvt "Gravity is a force", .aiCompleteEvt "Gravity is a force.",
           .restartFire]).startsWhilePlayback = [true] ∧
    (oRun [.socketReady, .connectEvt, .connectedEvt "s1",
           .aiChunkEvt "Gravity is a force", .aiCompleteEvt "Gravity is a force.",
           .restartFire]).speech.inFlight = ["Gravity is a force"] := by
  constructor
  · decide
  · decide

/-- Witness for the amended claim C2 at a concrete state. -/
theorem restart_timer_guard_is_running_flag_witness :
    (restartTimerFire runningOrch).startsWhilePlayback = runningOrch.startsWhilePlayback ∧
    (restartTimerFire runningOrch).isRecognitionRunning = true ∧
    (aiComplete "done" runningOrch).restartDelays =
      (if runningOrch.conversationMode ∧ runningOrch.hasRecognition ∧ ¬runningOrch.locked then
        runningOrch.restartDelays ++ [if runningOrch.audioMode then 1500 else 500]
      else runningOrch.restartDelays) :=
  restart_timer_guard_is_running_flag runningOrch "done" rfl

/-- Claim C5, amended: while conversation mode is enabled and the lock
flag is clear, a no-speech detector error schedules a delayed restart
attempt, and any error outside the no-speech and aborted whitelist
forces conversation mode off and sets the lock flag.  The amendment adds
the requirement that the lock flag be clear for the restart. -/
theorem detector_error_policy (s : OrchState) (kind : String)
    (hmode : s.conversationMode = true) (hlock : s.locked = false) :
    (kind = "no-speech" → (onRecError kind s).errorRetryCount = s.errorRetryCount + 1) ∧
    (kind ≠ "no-speech" → kind ≠ "aborted" →
      (onRecError kind s).conversationMode = false ∧
      (onRecError kind s).locked = true ∧
      (onRecError kind s).isListening = false) := by
  constructor
  · intro hk
    subst hk
    simp [onRecError, hmode, hlock]
  · intro h1 h2
    simp [onRecError, h1, h2]

/-- Claim C5 counterexample: the lock flag can be set while conversation
mode stays enabled (the sessionData removal effect does exactly that),
and in that state a no-speech error is a complete no-op, so no restart
attempt results even though conversation mode is enabled. -/
theorem no_speech_error_noop_when_locked :
    oRun [.aiCompleteEvt "hi", .reset, .recError "no-speech"]
      = oRun [.aiCompleteEvt "hi", .reset] ∧
    (oRun [.aiCompleteEvt "hi", .reset]).conversationMode = true ∧
    (oRun [.aiCompleteEvt "hi", .reset]).locked = true ∧
    (oRun [.aiCompleteEvt "hi", .reset]).errorRetryCount = 0 := by
  refine ⟨?_, ?_, ?_, ?_⟩ <;> decide

/-- Witness for the amended claim C5 at the initial state. -/
theorem detector_error_policy_witness :
    (onRecError "no-speech" initOrch).errorRetryCount = initOrch.errorRetryCount + 1 ∧
    ((onRecError "audio-capture" initOrch).conversationMode = false ∧
     (onRecError "audio-capture" initOrch).locked = true ∧
     (onRecError "audio-capture" initOrch).isListening = false) :=
  ⟨(detector_error_policy initOrch "no-speech" rfl rfl).1 rfl,
   (detector_error_policy initOrch "audio-capture" rfl rfl).2 (by decide) (by decide)⟩

/-- Claim C6, amended: after a disconnect only the send button is
blocked (its disabled attribute checks the connected flag), while
handleSendMessage itself never consults that flag: with the retained
socket and session id, a submission during the disconnected interval
still emits a user_message. -/
theorem disconnect_blocks_button_only (s : OrchState) (t : String)
    (hconn : s.isConnected = false) (hsock : s.hasSocket = true)
    (hsid : activeSessionId s ≠ "") (ht : jsTrim t ≠ "") :
    sendButtonDisabled s = true ∧
    (handleSendMessage (some t) s).sent = s.sent ++ [t] := by
  constructor
  · simp [sendButtonDisabled, hconn]
  · have htne : t ≠ "" := ne_empty_of_jsTrim_ne t ht
    unfold handleSendMessage
    simp [htne, ht, hsock, hsid]

/-- Claim C6 counterexample: after the connected, session-id and
disconnect events, the connection flag is down, yet a submission still
emits user_message, falsifying the claim that every submission is
rejected until connected recurs. -/
theorem disconnected_submission_still_emits :
    (oRun [.socketReady, .connectEvt, .connectedEvt "s1", .disconnectEvt,
           .send (some "hello")]).sent = ["hello"] ∧
    (oRun [.socketReady, .connectEvt, .connectedEvt "s1", .disconnectEvt]).isConnected
      = false := by
  constructor
  · decide
  · decide

/-- Witness for the amended claim C6 at a concrete disconnected state. -/
theorem disconnect_blocks_button_only_witness :
    sendButtonDisabled discOrch = true ∧
    (handleSendMessage (some "hi") discOrch).sent = discOrch.sent ++ ["hi"] :=
  disconnect_blocks_button_only discOrch "hi" rfl rfl (by decide) (by decide)

/-- Claim C9: a submission attempt with non-empty text while the socket
or the session id is missing is rejected locally with the not-connected
alert, emits no user_message, and appends no local message, so it is
never silently dropped. -/
theorem no_session_submission_alerts (s : OrchState) (t : String) (ht : t ≠ "")
    (h : s.hasSocket = false ∨ activeSessionId s = "") :
    (handleSendMessage (some t) s).sent = s.sent ∧
    (handleSendMessage (some t) s).msgs = s.msgs ∧
    (handleSendMessage (some t) s).alerts
      = s.alerts ++ ["Not connected to server. Please wait..."] := by
  unfold handleSendMessage
  rcases h with h | h
  · simp [ht, h]
  · simp [ht, h]

/-- Witness for claim C9 at the initial state, which has no socket. -/
theorem no_session_submission_alerts_witness :
    (handleSendMessage (some "hi") initOrch).sent = initOrch.sent ∧
    (handleSendMessage (some "hi") initOrch).msgs = initOrch.msgs ∧
    (handleSendMessage (some "hi") initOrch).alerts
      = initOrch.alerts ++ ["Not connected to server. Please wait..."] :=
  no_session_submission_alerts initOrch "hi" (by decide) (Or.inl rfl)

theorem audio_off_invariant (evs : List AEvent) (s : AudioState)
    (hm : s.audioMode = false) (hc : s.current = none) (hsp : s.isSpeaking = false)
    (hen : AEvent.enable ∉ evs) :
    (aRun s evs).audioMode = false ∧ (aRun s evs).current = none ∧
    (aRun s evs).isSpeaking = false ∧ (aRun s evs).started = s.started := by
  induction evs generalizing s with
  | nil => exact ⟨hm, hc, hsp, rfl⟩
  | cons e rest ih =>
      have hen' : AEvent.enable ∉ rest := fun h => hen (List.mem_cons_of_mem _ h)
      have hene : e ≠ AEvent.enable := fun h => hen (h ▸ List.mem_cons_self _ _)
      cases e with
      | enq u =>
          have hstep : aRun s (AEvent.enq u :: rest) = aRun (enqueueAudio u s) rest := rfl
          rw [hstep]
          have heq : enqueueAudio u s =
              if u = "" then s else { s with queue := s.queue ++ [u] } := by
            unfold enqueueAudio
            by_cases hu : u = ""
            · simp [hu]
            · simp [hu, hm]
          rw [heq]
          by_cases hu : u = ""
          · rw [if_pos hu]
            exact ih s hm hc hsp hen'
          · rw [if_neg hu]
            exact ih { s with queue := s.queue ++ [u] } hm hc hsp hen'
      | complete =>
          have hstep : aRun s (AEvent.complete :: rest) = aRun (onAudioComplete s) rest := rfl
          have heq : onAudioComplete s = s := by
            unfold onAudioComplete
            rw [hc]
          rw [hstep, heq]
          exact ih s hm hc hsp hen'
      | disable =>
          have hstep : aRun s (AEvent.disable :: rest) = aRun (disableAudio s) rest := rfl
          rw [hstep]
          exact ih (disableAudio s) rfl rfl rfl hen'
      | enable => exact absurd rfl hene

/-- Claim C3: disabling audio output mid-playback clears the queue,
drops the playing clip, and clears the speaking state immediately; and
along every continuation that does not re-enable audio output, no clip
is ever current again and no new clip starts, so no further segment
completion callback can fire. -/
theorem disable_audio_clears_and_silences (s : AudioState) (evs evs2 : List AEvent)
    (hen : AEvent.enable ∉ evs) (hpre : List.IsPrefix evs2 evs) :
    (disableAudio s).queue = [] ∧ (disableAudio s).current = none ∧
    (disableAudio s).isSpeaking = false ∧
    (aRun (disableAudio s) evs2).current = none ∧
    (aRun (disableAudio s) evs2).isSpeaking = false ∧
    (aRun (disableAudio s) evs2).started = s.started := by
  have hen2 : AEvent.enable ∉ evs2 := by
    intro hmem
    obtain ⟨tl, htl⟩ := hpre
    exact hen (htl ▸ List.mem_append_left tl hmem)
  obtain ⟨h1, h2, h3, h4⟩ :=
    audio_off_invariant evs2 (disableAudio s) rfl rfl rfl hen2
  exact ⟨rfl, rfl, rfl, h2, h3, h4⟩

/-- Witness for claim C3 on a playing state with further enqueue and
completion events after the disable. -/
theorem disable_audio_clears_and_silences_witness :
    (disableAudio playingAudio).queue = [] ∧
    (disableAudio playingAudio).current = none ∧
    (disableAudio playingAudio).isSpeaking = false ∧
    (aRun (disableAudio playingAudio) [AEvent.enq "b", AEvent.complete]).current = none ∧
    (aRun (disableAudio playingAudio) [AEvent.enq "b", AEvent.complete]).isSpeaking = false ∧
    (aRun (disableAudio playingAudio) [AEvent.enq "b", AEvent.complete]).started
      = playingAudio.started :=
  disable_audio_clears_and_silences playingAudio
    [AEvent.enq "b", AEvent.complete, AEvent.disable]
    [AEvent.enq "b", AEvent.complete]
    (by decide) ⟨[AEvent.disable], rfl⟩

/-- Claim C4: along every event run of the speech queue, the completed
segments followed by the in-flight segment and the pending queue equal
the enqueue history, at most one segment is in flight at a time, and the
segments that have started form a prefix of the enqueue order; hence
segments start and complete strictly in enqueue order and never overlap. -/
theorem playback_fifo_order (evs : List SEvent) :
    (sRun evs).completed ++ (sRun evs).inFlight ++ (sRun evs).queue
      = (sRun evs).enqueued ∧
    (sRun evs).inFlight.length ≤ 1 ∧
    List.IsPrefix ((sRun evs).completed ++ (sRun evs).inFlight) (sRun evs).enqueued := by
  obtain ⟨h1, h2, h3, h4⟩ := speechInv_run evs
  exact ⟨h1, h2, ⟨(sRun evs).queue, h1⟩⟩

/-- Claim C8: a playback error on a segment is handled by the very same
transition as normal completion; with a segment in flight and a
non-empty queue the next segment begins, and with an empty queue the
playback state clears, so one bad segment never stalls the queue. -/
theorem playback_error_like_completion (s : SpeechState) (u t : String)
    (ts : List String) :
    onUtteranceError s = onUtteranceEnd s ∧
    (s.inFlight = [u] → s.queue = t :: ts →
      (onUtteranceError s).inFlight = [t] ∧ (onUtteranceError s).queue = ts ∧
      (onUtteranceError s).completed = s.completed ++ [u] ∧
      (onUtteranceError s).isSpeakingRef = true) ∧
    (s.inFlight = [u] → s.queue = [] →
      (onUtteranceError s).inFlight = [] ∧
      (onUtteranceError s).completed = s.completed ++ [u] ∧
      (onUtteranceError s).isSpeakingRef = false) := by
  refine ⟨rfl, ?_, ?_⟩
  · intro h1 h2
    unfold onUtteranceError
    rw [h1]
    dsimp only
    rw [processNext_cons _ t ts (by simpa using h2)]
    simp
  · intro h1 h2
    unfold onUtteranceError
    rw [h1]
    dsimp only
    rw [processNext_nil _ (by simpa using h2)]
    simp

/-- Witness for claim C8 on a state with one in-flight and one queued
segment. -/
theorem playback_error_like_completion_witness :
    (onUtteranceError speakingSpeech).inFlight = ["b"] ∧
    (onUtteranceError speakingSpeech).queue = [] ∧
    (onUtteranceError speakingSpeech).completed = speakingSpeech.completed ++ ["a"] ∧
    (onUtteranceError speakingSpeech).isSpeakingRef = true :=
  (playback_error_like_completion speakingSpeech "a" "b" []).2.1 rfl rfl

/-- Claim C10: invoking the per-message replay command while speech is
playing cancels the in-flight synthesis, empties the whole streaming
queue and clears the speaking flags without speaking the requested text;
the requested text is handed to the synthesizer only when nothing is
playing, in which case the queue state is untouched. -/
theorem handleSpeak_cancel_or_speak (s : SpeechState) (text : String) :
    (s.isSpeaking = true →
      (handleSpeak s text).1.queue = [] ∧ (handleSpeak s text).1.inFlight = [] ∧
      (handleSpeak s text).1.isSpeakingRef = false ∧
      (handleSpeak s text).1.isSpeaking = false ∧
      (handleSpeak s text).2 = []) ∧
    (s.isSpeaking = false →
      (handleSpeak s text).2 = [text] ∧ (handleSpeak s text).1 = s) := by
  constructor
  · intro h
    simp [handleSpeak, h]
  · intro h
    simp [handleSpeak, h]

/-- Witness for claim C10: the replay command on a speaking state and on
the quiet initial state. -/
theorem handleSpeak_cancel_or_speak_witness :
    ((handleSpeak speakingSpeech "x").1.queue = [] ∧
     (handleSpeak speakingSpeech "x").1.inFlight = [] ∧
     (handleSpeak speakingSpeech "x").1.isSpeakingRef = false ∧
     (handleSpeak speakingSpeech "x").1.isSpeaking = false ∧
     (handleSpeak speakingSpeech "x").2 = []) ∧
    ((handleSpeak initSpeech "hi").2 = ["hi"] ∧
     (handleSpeak initSpeech "hi").1 = initSpeech) :=
  ⟨(handleSpeak_cancel_or_speak speakingSpeech "x").1 rfl,
   (handleSpeak_cancel_or_speak initSpeech "hi").2 rfl⟩

theorem find_eq_head_of_filter {α : Type} (p : α → Bool) (l : List α) :
    l.find? p = (l.filter p).head? := by
  induction l with
  | nil => rfl
  | cons a l ih =>
      by_cases h : p a = true
      · rw [List.find?_cons_of_pos _ h, List.filter_cons_of_pos h]
        rfl
      · rw [List.find?_cons_of_neg _ h, List.filter_cons_of_neg h, ih]

theorem find_reverse_eq_getLast_of_filter {α : Type} (p : α → Bool) (l : List α) :
    l.reverse.find? p = (l.filter p).getLast? := by
  rw [find_eq_head_of_filter, List.filter_reverse, List.head?_reverse]

/-- Claim C7, amended: on session join without locally present session
data, a non-empty remote history is loaded as completed messages in the
original array order, and the text handed to the synthesizer is exactly
the content of the last entry with the tutor role when audio output is
enabled (nothing otherwise) — never an earlier backlog entry.  The
amendment adds the condition that no local session data is present,
since the handler skips history entirely otherwise. -/
theorem session_join_order_and_single_speak (audioMode : Bool)
    (history : List HistEntry) (hne : history ≠ []) :
    ((sessionJoined false audioMode history).1.map (fun m => m.text)
        = history.map (fun m => m.content)) ∧
    ((sessionJoined false audioMode history).1.map (fun m => m.senderIsUser)
        = history.map (fun m => m.role == "user")) ∧
    ((sessionJoined false audioMode history).2
        = if audioMode then
            (match (history.filter (fun m => m.role == "tutor")).getLast? with
             | some m => [m.content]
             | none => [])
          else []) := by
  have h2 : ¬history.isEmpty := by simpa using hne
  unfold sessionJoined
  rw [if_pos ⟨by simp, h2⟩]
  dsimp only
  refine ⟨?_, ?_, ?_⟩
  · rw [List.map_map]
    have hcomp : ((fun m : HistMsg => m.text) ∘ (fun p : Nat × HistEntry =>
        { id := "history-" ++ toString p.1, text := p.2.content,
          senderIsUser := p.2.role == "user" : HistMsg }))
        = (fun m : HistEntry => m.content) ∘ Prod.snd := rfl
    rw [hcomp, ← List.map_map, List.enum_map_snd]
  · rw [List.map_map]
    have hcomp : ((fun m : HistMsg => m.senderIsUser) ∘ (fun p : Nat × HistEntry =>
        { id := "history-" ++ toString p.1, text := p.2.content,
          senderIsUser := p.2.role == "user" : HistMsg }))
        = (fun m : HistEntry => m.role == "user") ∘ Prod.snd := rfl
    rw [hcomp, ← List.map_map, List.enum_map_snd]
  · rw [find_reverse_eq_getLast_of_filter]
    cases hg : (history.filter (fun m => m.role == "tutor")).getLast? with
    | none => cases audioMode <;> simp
    | some m => cases audioMode <;> simp

/-- Claim C7 counterexample: a session join that returns a one-entry
history while local session data is present loads nothing at all, so the
history is not loaded as messages, falsifying the unconditional claim at
this concrete input. -/
theorem session_join_skipped_with_session_data :
    (sessionJoined true true [⟨"tutor", "welcome"⟩]).1.map (fun m => m.text)
      ≠ [HistEntry.mk "tutor" "welcome"].map (fun m => m.content) ∧
    sessionJoined true true [⟨"tutor", "welcome"⟩] = ([], []) := by
  constructor
  · decide
  · decide

/-- Witness for the amended claim C7 on a four-entry history with two
tutor messages. -/
theorem session_join_order_and_single_speak_witness :
    ((sessionJoined false true histSample).1.map (fun m => m.text)
        = histSample.map (fun m => m.content)) ∧
    ((sessionJoined false true histSample).1.map (fun m => m.senderIsUser)
        = histSample.map (fun m => m.role == "user")) ∧
    ((sessionJoined false true histSample).2
        = if true then
            (match (histSample.filter (fun m => m.role == "tutor")).getLast? with
             | some m => [m.content]
             | none => [])
          else []) :=
  session_join_order_and_single_speak true histSample (by decide)

end Parley
